import Mathlib

/-
  Verification of the tr1d1um translation gateway.

  Shallow embedding of the translation and forwarding pipeline:
    - src/tr1d1um/translation/transport.go  (request decoding, response and
      error encoding)
    - src/tr1d1um/communication.go          (Tr1SendAndHandle.HandleResponse,
      ContextTimeoutRequester.PerformRequest)
    - common helpers (ForwardHeadersByPrefix)

  Go byte slices are modelled as Lean strings (byte-for-byte equality is
  string equality).  Library calls whose implementation lives outside the
  repository (encoding/json unmarshalling, wrp msgpack decoding, the common
  package helpers missing from the tree) are passed in as explicit function
  parameters, so every theorem quantifies over their behaviour or pins a
  concrete instance mirroring the documented library behaviour.
-/

deriving instance DecidableEq for Except

namespace Tr1d1um

/-! ## HTTP headers

Go http.Header is a multimap from names to value lists; we model it as a
flat association list of name/value pairs.  Header.Add appends a pair,
Header.Set replaces all pairs of the name. -/

abbrev Headers := List (String × String)

def headersGet (k : String) (hs : Headers) : List String :=
  (hs.filter (fun kv => kv.1 == k)).map (fun kv => kv.2)

def headersSet (hs : Headers) (k v : String) : Headers :=
  hs.filter (fun kv => kv.1 != k) ++ [(k, v)]

/-- strings.HasPrefix: the character sequence of p is a prefix of that
of k. -/
def hasPre (p k : String) : Bool :=
  p.data.isPrefixOf k.data

/-- ForwardHeadersByPrefix (common package): copies onto dst every header
pair of src whose name has p as a name prefix, keeping dst intact. -/
def ForwardHeadersByPrefix (p : String) (src : Headers) (dst : Headers) : Headers :=
  dst ++ src.filter (fun kv => hasPre p kv.1)

/-! ## Response writer

Model of net/http ResponseWriter as seen by this code: WriteHeader commits
the status once (later calls are ignored), Write commits status 200 when
none was committed and appends bytes to the body. -/

structure Writer where
  headers : Headers
  status : Option Int
  body : String
deriving DecidableEq

def Writer.writeHeader (w : Writer) (c : Int) : Writer :=
  match w.status with
  | some _ => w
  | none => { w with status := some c }

def Writer.write (w : Writer) (b : String) : Writer :=
  { w with status := some (w.status.getD 200), body := w.body ++ b }

def Writer.setHeader (w : Writer) (k v : String) : Writer :=
  { w with headers := headersSet w.headers k v }

def freshWriter : Writer := { headers := [], status := none, body := "" }

/-! ## Shared constants (translation/transport.go) -/

def contentTypeHeaderKey : String := "Content-Type"

def jsonContentType : String := "application/json; charset=utf-8"

/-- Modelled from the spec: name of the transaction-id header written on
every caller-facing response (common.HeaderWPATID; the common constants
file is not in the tree, only its uses are).  Only the fact that it is a
fixed name differing from Content-Type matters below. -/
def HeaderWPATID : String := "X-WebPA-Transaction-Id"

/-- Modelled from the spec: the fixed, non-leaking internal-error message
(common.ErrTr1d1umInternal; the common errors file is not in the tree).
Only its fixedness - independence from the original error - matters. -/
def ErrTr1d1umInternalMsg : String := "oops! something went wrong"

/-! ## Response translation (translation/transport.go, encodeResponse)

decodeWRP models wrp.NewDecoderBytes(bytes, wrp.Msgpack).Decode and
returns the Payload field of the decoded message (the only field used);
unmarshalStatusCode models json.Unmarshal of the payload into the
anonymous struct with the statusCode field: none is an unmarshal error,
some sc is the decoded StatusCode (0 when the field is absent, which is
the Go zero value). -/

structure XmidtResponse where
  Body : String
  ForwardedHeaders : Headers
  Code : Int
deriving DecidableEq

def encodeResponse (decodeWRP : String → Except String String)
    (unmarshalStatusCode : String → Option Int)
    (tid : String) (w : Writer) (resp : XmidtResponse) : Writer × Option String :=
  let w1 := { w with headers := ForwardHeadersByPrefix "" resp.ForwardedHeaders w.headers }
  let w2 := w1.setHeader HeaderWPATID tid
  if resp.Code ≠ 200 then
    ((w2.writeHeader resp.Code).write resp.Body, none)
  else
    match decodeWRP resp.Body with
    | .ok payload =>
        let w3 := w2.setHeader contentTypeHeaderKey jsonContentType
        let w4 := match unmarshalStatusCode payload with
          | some sc => if sc ≠ 0 ∧ sc ≠ 500 then w3.writeHeader sc else w3
          | none => w3
        (w4.write payload, none)
    | .error e => (w2, some e)

/-! ## Error encoding (translation/transport.go, encodeError)

A Go error is either a common.CodedError (carries an HTTP status code)
or any other error value.  jsonMessageBody models
json.NewEncoder(w).Encode of the one-entry message map. -/

inductive GoError
  | coded (status : Int) (msg : String)
  | plain (msg : String)
deriving DecidableEq

def encodeError (jsonMessageBody : String → String)
    (tid : String) (e : GoError) (w : Writer) : Writer :=
  let w1 := w.setHeader contentTypeHeaderKey jsonContentType
  let w2 := w1.setHeader HeaderWPATID tid
  match e with
  | .coded sc msg => (w2.writeHeader sc).write (jsonMessageBody msg)
  | .plain _ => (w2.writeHeader 500).write (jsonMessageBody ErrTr1d1umInternalMsg)

/-! ## WDMP command payloads (translation/transport.go request decoding)

The WDMP structures and command constants live in a definitions file that
is not in the tree; the spec describes them as five distinct sub-kinds, so
they are modelled as an inductive tag.  json.Marshal of a fully built
WDMP structure never fails for these types, so it is modelled as the
injection into the WDMP sum. -/

inductive WDMPCommand
  | get
  | getAttrs
  | addRow
  | replaceRows
  | deleteRow
deriving DecidableEq

structure getWDMP where
  Command : WDMPCommand
  Names : List String
  Attributes : String
deriving DecidableEq

abbrev Row := List (String × String)

structure addRowWDMP where
  Command : WDMPCommand
  Table : String
  Row : Row
deriving DecidableEq

structure replaceRowsWDMP where
  Command : WDMPCommand
  Table : String
  Rows : List Row
deriving DecidableEq

structure deleteRowDMP where
  Command : WDMPCommand
  Row : String
deriving DecidableEq

inductive WDMP
  | get (g : getWDMP)
  | add (a : addRowWDMP)
  | replace (r : replaceRowsWDMP)
  | delete (d : deleteRowDMP)
  | set (bytes : String)
  | raw (b : String)
deriving DecidableEq

/-- Named decode errors, plus libError for JSON or read errors the Go code
propagates as-is. -/
inductive WDMPError
  | EmptyNames
  | InvalidService
  | MissingTable
  | MissingRow
  | MissingRows
  | InvalidSetWDMP
  | UnsupportedMethod
  | libError (msg : String)
deriving DecidableEq

/-! ## Path variables (gorilla mux)

mux.Vars is a map from variable name to matched segment; indexing a
missing key yields the empty string (Go map zero value), while the
two-valued lookup distinguishes absence. -/

abbrev Vars := List (String × String)

def varsLookup (m : Vars) (k : String) : Option String :=
  (m.find? (fun kv => kv.1 == k)).map (fun kv => kv.2)

def varsGetD (m : Vars) (k : String) : String :=
  (varsLookup m k).getD ""

/-- Route variables of the three-segment route
/device/\x7bdeviceid\x7d/\x7bservice\x7d/\x7bparameter\x7d registered for
DELETE, PUT and POST (transport.go ConfigHandler). -/
def postParamRouteVars : List String := ["deviceid", "service", "parameter"]

/-- Route variables of the POST-only route
/device/\x7bdeviceid\x7d/\x7bservice:iot\x7d (transport.go ConfigHandler). -/
def postIotRouteVars : List String := ["deviceid", "service"]

/-! ## Request-type specific decoding functions (translation/transport.go) -/

def requestGetPayload (names attributes : String) : Except WDMPError WDMP :=
  if names = "" then
    .error .EmptyNames
  else
    let g : getWDMP := { Command := .get, Names := names.splitOn ",", Attributes := "" }
    let g := if attributes ≠ "" then
        { g with Command := .getAttrs, Attributes := attributes }
      else g
    .ok (.get g)

def requestAddPayload (unmarshalRow : String → Except String Row)
    (m : Vars) (bodyRead : Except String String) : Except WDMPError WDMP :=
  match varsLookup m "parameter" with
  | none => .error .MissingTable
  | some table =>
    match bodyRead with
    | .error e => .error (.libError e)
    | .ok payload =>
      if payload = "" then .error .MissingRow
      else
        match unmarshalRow payload with
        | .ok row => .ok (.add { Command := .addRow, Table := table, Row := row })
        | .error e => .error (.libError e)

def requestReplacePayload (unmarshalRows : String → Except String (List Row))
    (m : Vars) (bodyRead : Except String String) : Except WDMPError WDMP :=
  match varsLookup m "parameter" with
  | none => .error .MissingTable
  | some table =>
    match bodyRead with
    | .error e => .error (.libError e)
    | .ok payload =>
      if payload = "" then .error .MissingRows
      else
        match unmarshalRows payload with
        | .ok rows => .ok (.replace { Command := .replaceRows, Table := table, Rows := rows })
        | .error e => .error (.libError e)

def requestDeletePayload (m : Vars) : Except WDMPError WDMP :=
  match varsLookup m "parameter" with
  | some row => .ok (.delete { Command := .deleteRow, Row := row })
  | none => .error .MissingRow

/-! ## Method dispatch (translation/transport.go, requestPayload) -/

inductive Method
  | get
  | patch
  | delete
  | put
  | post
  | other (s : String)
deriving DecidableEq

/-- The HTTP request shape consumed by requestPayload: mux vars, the two
form values the GET branch reads, the three header values the PATCH
branch reads, and the result of reading the request body. -/
structure RequestModel where
  method : Method
  vars : Vars
  formNames : String
  formAttributes : String
  headerNewCID : String
  headerOldCID : String
  headerSyncCMC : String
  bodyRead : Except String String
deriving DecidableEq

/-- External functions requestPayload depends on: the JSON unmarshallers
used by the add and replace branches, and the whole of requestSetPayload
(the PATCH branch), whose setWDMP, deduceSET and isValidSetWDMP
dependencies are in a definitions file not in the tree. -/
structure JsonLib where
  unmarshalRow : String → Except String Row
  unmarshalRows : String → Except String (List Row)
  setPayload : Except String String → String → String → String → Except WDMPError WDMP

def requestPayload (lib : JsonLib) (r : RequestModel) : Except WDMPError WDMP :=
  match r.method with
  | .get => requestGetPayload r.formNames r.formAttributes
  | .patch => lib.setPayload r.bodyRead r.headerNewCID r.headerOldCID r.headerSyncCMC
  | .delete => requestDeletePayload r.vars
  | .put => requestReplacePayload lib.unmarshalRows r.vars r.bodyRead
  | .post =>
    if varsGetD r.vars "service" = "iot" then
      if varsGetD r.vars "parameters" = "" then
        match r.bodyRead with
        | .ok b => .ok (.raw b)
        | .error e => .error (.libError e)
      else .error .InvalidService
    else requestAddPayload lib.unmarshalRow r.vars r.bodyRead
  | .other _ => .error .UnsupportedMethod

/-- Models decodeRequest followed by the go-kit server dispatch: the
endpoint (and with it the backend network call) runs only when the decode
succeeded; a decode error short-circuits to the error encoder. -/
def decodeThenExecute {α : Type} (lib : JsonLib) (networkCall : WDMP → α)
    (r : RequestModel) : Except WDMPError α :=
  (requestPayload lib r).map networkCall

/-! ## Request executor (communication.go, PerformRequest)

The select statement races the completion of client.Do (delivered on the
responseReady channel) against ctx.Done; the embedding takes the winner of
that race as an explicit input and returns what the select returns. -/

structure HttpResp where
  statusCode : Int
  headers : Headers
  bodyRead : Except String String
deriving DecidableEq

structure ClientResponse where
  resp : Option HttpResp
  err : Option String
deriving DecidableEq

inductive RaceWinner
  | callCompleted
  | ctxFired
deriving DecidableEq

def PerformRequest (ctxErr : String) (callResult : ClientResponse) :
    RaceWinner → ClientResponse
  | .callCompleted => callResult
  | .ctxFired => { resp := none, err := some ctxErr }

/-- Capacity of the responseReady channel: make(chan clientResponse) in
PerformRequest builds an unbuffered channel. -/
def responseReadyCapacity : Nat := 0

/-- Go channel state: a send can complete exactly when a receiver is
blocked waiting on the channel or the buffer has free space. -/
structure ChanState where
  capacity : Nat
  buffered : Nat
  receivers : Nat
deriving DecidableEq

def sendCompletes (c : ChanState) : Bool :=
  decide (0 < c.receivers) || decide (c.buffered < c.capacity)

/-- State of responseReady once the select has taken the ctx.Done branch
and PerformRequest has returned: the select was the only receiver, nothing
was ever buffered. -/
def responseReadyAfterCancel : ChanState :=
  { capacity := responseReadyCapacity, buffered := 0, receivers := 0 }

/-! ## HandleResponse (communication.go, Tr1SendAndHandle.HandleResponse)

reportError models the main-package ReportError helper (not in the tree);
extractPayload models encodingHelper.ExtractPayload applied to the body
bytes (a preceding body-read failure propagates as the read error, since
ExtractPayload reads the body itself); getStatusCode models
GetStatusCodeFromRDKResponse. -/

def HandleResponse
    (reportError : Option String → Writer → Writer)
    (extractPayload : String → Except String String)
    (getStatusCode : String → Except String Int)
    (err : Option String) (respFromServer : Option HttpResp)
    (origin : Writer) (wholeBody : Bool) : Writer :=
  let origin := match respFromServer with
    | some r => { origin with headers := ForwardHeadersByPrefix "X" r.headers origin.headers }
    | none => origin
  match err with
  | some e => reportError (some e) origin
  | none =>
    match respFromServer with
    | none => origin
    | some r =>
      if r.statusCode ≠ 200 then
        let bodyResp := match r.bodyRead with
          | .ok b => b
          | .error _ => ""
        (origin.writeHeader r.statusCode).write bodyResp
      else if wholeBody then
        match r.bodyRead with
        | .ok b => reportError none (origin.write b)
        | .error e => reportError (some e) origin
      else
        match (match r.bodyRead with
               | .error e => Except.error e
               | .ok b => extractPayload b) with
        | .ok payload =>
          let origin := match getStatusCode payload with
            | .ok code => if code ≠ 500 then origin.writeHeader code else origin
            | .error _ => origin
          origin.write payload
        | .error e => reportError (some e) origin

/-! ## Header lemmas -/

theorem headersGet_append (k : String) (a b : Headers) :
    headersGet k (a ++ b) = headersGet k a ++ headersGet k b := by
  simp [headersGet, List.filter_append]

theorem headersGet_set_self (hs : Headers) (k v : String) :
    headersGet k (headersSet hs k v) = [v] := by
  have hnil : headersGet k (hs.filter (fun kv => kv.1 != k)) = [] := by
    simp only [headersGet, List.map_eq_nil_iff, List.filter_filter]
    apply List.filter_eq_nil_iff.mpr
    intro kv _
    by_cases h : kv.1 = k <;> simp [h]
  simp [headersSet, headersGet_append, hnil, headersGet]

theorem headersGet_set_ne (hs : Headers) (k k2 v : String) (hne : k2 ≠ k) :
    headersGet k (headersSet hs k2 v) = headersGet k hs := by
  have h2 : headersGet k [(k2, v)] = [] := by simp [headersGet, hne]
  have hfil : headersGet k (hs.filter (fun kv => kv.1 != k2)) = headersGet k hs := by
    simp only [headersGet, List.filter_filter]
    congr 1
    apply List.filter_congr
    intro kv _
    by_cases h : kv.1 = k
    · simp [h, Ne.symm hne]
    · simp [h]
  rw [headersSet, headersGet_append, h2, List.append_nil, hfil]

theorem headersGet_nil_of_forall_ne (hs : Headers) (k : String)
    (h : ∀ kv ∈ hs, kv.1 ≠ k) : headersGet k hs = [] := by
  simp only [headersGet, List.map_eq_nil_iff]
  apply List.filter_eq_nil_iff.mpr
  intro kv hmem
  simp [h kv hmem]

theorem mem_headersSet_of_ne (hs : Headers) (k v : String) (kv : String × String)
    (hne : kv.1 ≠ k) (hmem : kv ∈ hs) : kv ∈ headersSet hs k v := by
  simp only [headersSet, List.mem_append]
  left
  simp [List.mem_filter, hmem, hne]

theorem mem_ForwardHeadersByPrefix (p : String) (src dst : Headers) (kv : String × String) :
    kv ∈ ForwardHeadersByPrefix p src dst ↔
      kv ∈ dst ∨ (kv ∈ src ∧ hasPre p kv.1 = true) := by
  simp [ForwardHeadersByPrefix, List.mem_filter]

theorem hasPre_empty (k : String) : hasPre "" k = true := by
  simp [hasPre]

/-! ## Writer projection lemmas -/

theorem writeHeader_headers (w : Writer) (c : Int) :
    (w.writeHeader c).headers = w.headers := by
  cases h : w.status <;> simp [Writer.writeHeader, h]

theorem write_headers (w : Writer) (b : String) : (w.write b).headers = w.headers := rfl

theorem writeHeader_body (w : Writer) (c : Int) : (w.writeHeader c).body = w.body := by
  cases h : w.status <;> simp [Writer.writeHeader, h]

theorem write_body (w : Writer) (b : String) : (w.write b).body = w.body ++ b := rfl

theorem write_status (w : Writer) (b : String) :
    (w.write b).status = some (w.status.getD 200) := rfl

theorem writeHeader_status_of_none (w : Writer) (c : Int) (h : w.status = none) :
    (w.writeHeader c).status = some c := by
  simp [Writer.writeHeader, h]

theorem setHeader_status (w : Writer) (k v : String) : (w.setHeader k v).status = w.status := rfl

theorem setHeader_body (w : Writer) (k v : String) : (w.setHeader k v).body = w.body := rfl

theorem setHeader_headers (w : Writer) (k v : String) :
    (w.setHeader k v).headers = headersSet w.headers k v := rfl

/-- Headers written by encodeResponse, by branch: the forwarded backend
headers plus the transaction id, plus a JSON Content-Type exactly on the
envelope-unwrapped branch. -/
theorem encodeResponse_headers (d : String → Except String String) (u : String → Option Int)
    (tid : String) (w : Writer) (resp : XmidtResponse) :
    (encodeResponse d u tid w resp).1.headers =
      (if resp.Code = 200 ∧ (d resp.Body).isOk then
        headersSet (headersSet (ForwardHeadersByPrefix "" resp.ForwardedHeaders w.headers)
          HeaderWPATID tid) contentTypeHeaderKey jsonContentType
      else
        headersSet (ForwardHeadersByPrefix "" resp.ForwardedHeaders w.headers)
          HeaderWPATID tid) := by
  by_cases hc : resp.Code = 200
  · rcases hd : d resp.Body with e | p
    · simp [encodeResponse, hc, hd, Except.isOk, Except.toBool, Writer.setHeader]
    · rcases hu : u p with _ | sc
      · simp [encodeResponse, hc, hd, hu, Except.isOk, Except.toBool, Writer.setHeader,
          write_headers]
      · by_cases h5 : sc ≠ 0 ∧ sc ≠ 500 <;>
          simp [encodeResponse, hc, hd, hu, h5, Except.isOk, Except.toBool, Writer.setHeader,
            write_headers, writeHeader_headers]
  · simp [encodeResponse, hc, Writer.setHeader, write_headers, writeHeader_headers]

/-! ## Claim theorems -/

/-- Claim C1, evaluated on the code at the failing schedule: when the
context fires before client.Do completes, PerformRequest does return the
context error immediately and independently of the eventual call result
(first conjunct, for every possible call result), but the abandoned
goroutine can never complete its send on the unbuffered responseReady
channel once the select - its only receiver - has returned (second
conjunct), so the goroutine blocks forever: the non-blocking-delivery part
of the claim fails on the code. -/
theorem c1_cancellation_race :
    (∀ callResult : ClientResponse,
      PerformRequest "context canceled" callResult .ctxFired
        = { resp := none, err := some "context canceled" }) ∧
    sendCompletes responseReadyAfterCancel = false := by
  exact ⟨fun _ => rfl, rfl⟩

/-- Claim C7: a coded error reaches the caller with its own status code
and its own message in the message body; every other error reaches the
caller with status 500 and the fixed internal-error message, and the
written response is independent of the original error message (no leak). -/
theorem c7_error_classifier (jenc : String → String) (tid : String) (sc : Int) (m : String) :
    ((encodeError jenc tid (.coded sc m) freshWriter).status = some sc) ∧
    ((encodeError jenc tid (.coded sc m) freshWriter).body = jenc m) ∧
    ((encodeError jenc tid (.plain m) freshWriter).status = some 500) ∧
    ((encodeError jenc tid (.plain m) freshWriter).body = jenc ErrTr1d1umInternalMsg) ∧
    (∀ m2, encodeError jenc tid (.plain m2) freshWriter
        = encodeError jenc tid (.plain m) freshWriter) := by
  refine ⟨rfl, ?_, rfl, ?_, fun m2 => rfl⟩ <;>
    simp [encodeError, Writer.setHeader, Writer.writeHeader, Writer.write, freshWriter]

def c2decodeW : String → Except String String :=
  fun b => if b = "ENV" then .ok "PAY" else .error "bad wrp"

def c2uscW : String → Option Int :=
  fun p => if p = "PAY" then some 404 else none

def c2respW : XmidtResponse := { Body := "ENV", ForwardedHeaders := [], Code := 200 }

def c2epW : String → Except String String :=
  fun b => if b = "ENV0" then .ok "PAY0" else .error "bad wrp"

def c2gscW : String → Except String Int :=
  fun p => if p = "PAY0" then .ok 0 else .error "no status code"

def c2httpW : HttpResp := { statusCode := 200, headers := [], bodyRead := .ok "ENV0" }

def c2reW : Option String → Writer → Writer := fun _ w => w

/-- Counterexample for C2 as stated: the claim also covers the
HandleResponse envelope path (communication.go:114-122), whose guard
checks only that the status-code extraction returned no error and a value
other than 500 - it has NO non-zero check. At this concrete input, a
backend 200 whose extracted inner payload carries an embedded statusCode
of zero (the extraction helper returning the decoded zero with no error,
as json unmarshalling of a present zero field does), the caller-facing
status is 0 - not the nominal success code the claim prescribes for a
zero statusCode. -/
theorem c2_counterexample :
    ((HandleResponse c2reW c2epW c2gscW none (some c2httpW) freshWriter false).status
      = some 0) ∧
    ((HandleResponse c2reW c2epW c2gscW none (some c2httpW) freshWriter false).status
      ≠ some 200) := by
  exact ⟨by decide, by decide⟩

/-- Claim C2 as amended: on the translation service path (encodeResponse,
transport.go:153-171) the claim holds as stated - an embedded statusCode
that is non-zero and not 500 becomes the caller-facing status, while an
absent field (the Go zero value 0), a zero or 500 value, or an unmarshal
failure leaves the nominal success code, and the body is the inner
payload bytes. On the HandleResponse envelope path
(communication.go:114-122) the extracted status is used whenever
extraction succeeds with any value other than 500 - there is no non-zero
guard, so an extracted zero is written as caller status 0 - and the
nominal success code is used when extraction fails or yields 500; there
too the caller-facing body is the inner payload bytes, not the outer
envelope. -/
theorem c2_status_derivation_amended (decodeWRP : String → Except String String)
    (usc : String → Option Int) (tid : String) (resp : XmidtResponse) (payload : String)
    (re : Option String → Writer → Writer)
    (ep : String → Except String String) (gsc : String → Except String Int)
    (r : HttpResp) (b p2 : String)
    (hc : resp.Code = 200) (hd : decodeWRP resp.Body = .ok payload)
    (hs : r.statusCode = 200) (hb : r.bodyRead = .ok b) (hep : ep b = .ok p2) :
    ((encodeResponse decodeWRP usc tid freshWriter resp).2 = none) ∧
    ((encodeResponse decodeWRP usc tid freshWriter resp).1.body = payload) ∧
    (∀ sc : Int, usc payload = some sc → sc ≠ 0 → sc ≠ 500 →
      (encodeResponse decodeWRP usc tid freshWriter resp).1.status = some sc) ∧
    (∀ sc : Int, usc payload = some sc → (sc = 0 ∨ sc = 500) →
      (encodeResponse decodeWRP usc tid freshWriter resp).1.status = some 200) ∧
    (usc payload = none →
      (encodeResponse decodeWRP usc tid freshWriter resp).1.status = some 200) ∧
    ((HandleResponse re ep gsc none (some r) freshWriter false).body = p2) ∧
    (∀ code : Int, gsc p2 = .ok code → code ≠ 500 →
      (HandleResponse re ep gsc none (some r) freshWriter false).status = some code) ∧
    (gsc p2 = .ok 500 →
      (HandleResponse re ep gsc none (some r) freshWriter false).status = some 200) ∧
    (∀ e, gsc p2 = .error e →
      (HandleResponse re ep gsc none (some r) freshWriter false).status = some 200) := by
  refine ⟨?_, ?_, ?_, ?_, ?_, ?_, ?_, ?_, ?_⟩
  · rcases hu : usc payload with _ | sc
    · simp [encodeResponse, hc, hd, hu]
    · by_cases h5 : sc ≠ 0 ∧ sc ≠ 500 <;> simp [encodeResponse, hc, hd, hu, h5]
  · rcases hu : usc payload with _ | sc
    · simp [encodeResponse, hc, hd, hu, Writer.write, Writer.setHeader, freshWriter]
    · by_cases h5 : sc ≠ 0 ∧ sc ≠ 500 <;>
        simp [encodeResponse, hc, hd, hu, h5, Writer.write, Writer.writeHeader,
          Writer.setHeader, freshWriter]
  · intro sc hu h0 h500
    simp [encodeResponse, hc, hd, hu, h0, h500, Writer.write, Writer.writeHeader,
      Writer.setHeader, freshWriter]
  · intro sc hu hor
    have h5 : ¬(sc ≠ 0 ∧ sc ≠ 500) := by
      rcases hor with h | h <;> simp [h]
    simp [encodeResponse, hc, hd, hu, h5, Writer.write, Writer.setHeader, freshWriter]
  · intro hu
    simp [encodeResponse, hc, hd, hu, Writer.write, Writer.setHeader, freshWriter]
  · rcases hg : gsc p2 with e | code
    · simp [HandleResponse, hs, hb, hep, hg, Writer.write, freshWriter]
    · by_cases h5 : code ≠ 500 <;>
        simp [HandleResponse, hs, hb, hep, hg, h5, Writer.write, writeHeader_body,
          freshWriter]
  · intro code hg h5
    simp [HandleResponse, hs, hb, hep, hg, h5, Writer.write, Writer.writeHeader,
      freshWriter]
  · intro hg
    simp [HandleResponse, hs, hb, hep, hg, Writer.write, freshWriter]
  · intro e hg
    simp [HandleResponse, hs, hb, hep, hg, Writer.write, freshWriter]

/-- Witness for the amended C2: an envelope with inner statusCode 404
yields 404 with the inner payload as body on the encodeResponse path, and
on the HandleResponse path an extracted zero statusCode is written as
caller status 0 with the inner payload as body. -/
theorem c2_status_derivation_amended_witness :
    ((encodeResponse c2decodeW c2uscW "tid0" freshWriter c2respW).1.status = some 404) ∧
    ((encodeResponse c2decodeW c2uscW "tid0" freshWriter c2respW).1.body = "PAY") ∧
    ((HandleResponse c2reW c2epW c2gscW none (some c2httpW) freshWriter false).status
      = some 0) ∧
    ((HandleResponse c2reW c2epW c2gscW none (some c2httpW) freshWriter false).body
      = "PAY0") := by
  have h := c2_status_derivation_amended c2decodeW c2uscW "tid0" c2respW "PAY"
    c2reW c2epW c2gscW c2httpW "ENV0" "PAY0" rfl (by decide) rfl (by decide) (by decide)
  exact ⟨h.2.2.1 404 (by decide) (by decide) (by decide), h.2.1,
    h.2.2.2.2.2.2.1 0 (by decide) (by decide), h.2.2.2.2.2.1⟩

/-- Claim C3: a backend response with a non-OK status is mirrored
byte-for-byte: the caller sees the backend status and body unchanged, the
output does not depend on the envelope or statusCode decoders (no decode
is attempted), and no Content-Type header is introduced; likewise for
HandleResponse, whose non-200 branch writes the backend status and body
and does not depend on the payload extractor or status-code reader. -/
theorem c3_non_success_mirror
    (d1 d2 : String → Except String String) (u1 u2 : String → Option Int)
    (tid : String) (w : Writer) (resp : XmidtResponse)
    (re : Option String → Writer → Writer)
    (ep1 ep2 : String → Except String String) (gsc1 gsc2 : String → Except String Int)
    (r : HttpResp) (origin : Writer) (wb : Bool) (b : String)
    (hc : resp.Code ≠ 200) (hw : w.status = none)
    (hs : r.statusCode ≠ 200) (ho : origin.status = none) (hb : r.bodyRead = .ok b) :
    ((encodeResponse d1 u1 tid w resp).1.status = some resp.Code) ∧
    ((encodeResponse d1 u1 tid w resp).1.body = w.body ++ resp.Body) ∧
    (encodeResponse d1 u1 tid w resp = encodeResponse d2 u2 tid w resp) ∧
    ((∀ kv ∈ resp.ForwardedHeaders, kv.1 ≠ contentTypeHeaderKey) →
      headersGet contentTypeHeaderKey (encodeResponse d1 u1 tid w resp).1.headers
        = headersGet contentTypeHeaderKey w.headers) ∧
    ((encodeResponse d1 u1 tid w resp).2 = none) ∧
    ((HandleResponse re ep1 gsc1 none (some r) origin wb).status = some r.statusCode) ∧
    ((HandleResponse re ep1 gsc1 none (some r) origin wb).body = origin.body ++ b) ∧
    (HandleResponse re ep1 gsc1 none (some r) origin wb
      = HandleResponse re ep2 gsc2 none (some r) origin wb) := by
  refine ⟨?_, ?_, ?_, ?_, ?_, ?_, ?_, ?_⟩
  · simp [encodeResponse, hc, Writer.write, Writer.writeHeader, Writer.setHeader, hw]
  · simp [encodeResponse, hc, Writer.write, writeHeader_body, Writer.setHeader]
  · simp [encodeResponse, hc]
  · intro hct
    rw [encodeResponse_headers]
    have hnot : ¬(resp.Code = 200 ∧ (d1 resp.Body).isOk) := by simp [hc]
    rw [if_neg hnot]
    rw [headersGet_set_ne _ _ _ _ (by decide)]
    rw [ForwardHeadersByPrefix, headersGet_append]
    have hnil : headersGet contentTypeHeaderKey
        (resp.ForwardedHeaders.filter (fun kv => hasPre "" kv.1)) = [] := by
      apply headersGet_nil_of_forall_ne
      intro kv hmem
      exact hct kv (List.mem_of_mem_filter hmem)
    rw [hnil, List.append_nil]
  · simp [encodeResponse, hc]
  · simp [HandleResponse, hs, hb, Writer.write, Writer.writeHeader, ho]
  · simp [HandleResponse, hs, hb, Writer.write, writeHeader_body]
  · simp [HandleResponse, hs, hb]

def c3respW : XmidtResponse :=
  { Body := "outage", ForwardedHeaders := [("X-A", "1")], Code := 503 }

def c3httpW : HttpResp := { statusCode := 503, headers := [], bodyRead := .ok "outage" }

def c3decW : String → Except String String := fun _ => .error "never"

def c3uscW : String → Option Int := fun _ => none

def c3gscW : String → Except String Int := fun _ => .error "never"

def c3reW : Option String → Writer → Writer := fun _ w => w

/-- Witness for C3: a backend 503 with a concrete body is mirrored with
status 503 and the same body by both translation paths. -/
theorem c3_non_success_mirror_witness :
    ((encodeResponse c3decW c3uscW "tid0" freshWriter c3respW).1.status = some 503) ∧
    ((encodeResponse c3decW c3uscW "tid0" freshWriter c3respW).1.body = "outage") ∧
    ((HandleResponse c3reW c3decW c3gscW none (some c3httpW) freshWriter false).status
      = some 503) ∧
    ((HandleResponse c3reW c3decW c3gscW none (some c3httpW) freshWriter false).body
      = "outage") := by
  have h := c3_non_success_mirror c3decW c3decW c3uscW c3uscW "tid0" freshWriter c3respW
    c3reW c3decW c3decW c3gscW c3gscW c3httpW freshWriter false "outage"
    (by decide) rfl (by decide) rfl (by decide)
  refine ⟨h.1, by simpa using h.2.1, h.2.2.2.2.2.1, by simpa using h.2.2.2.2.2.2.1⟩

/-- Claim C9: response translation is deterministic - two backend
responses equal byte-for-byte (same body bytes, same headers, same status
code) translate to identical caller-facing responses. -/
theorem c9_deterministic (d : String → Except String String) (u : String → Option Int)
    (tid : String) (w : Writer) (r1 r2 : XmidtResponse)
    (hb : r1.Body = r2.Body) (hh : r1.ForwardedHeaders = r2.ForwardedHeaders)
    (hc : r1.Code = r2.Code) :
    encodeResponse d u tid w r1 = encodeResponse d u tid w r2 := by
  cases r1
  cases r2
  simp only at hb hh hc
  subst hb
  subst hh
  subst hc
  rfl

/-- Witness for C9 at a concrete pair of equal responses. -/
theorem c9_deterministic_witness :
    encodeResponse c3decW c3uscW "tid0" freshWriter { Body := "b", ForwardedHeaders := [], Code := 200 }
      = encodeResponse c3decW c3uscW "tid0" freshWriter { Body := "b", ForwardedHeaders := [], Code := 200 } := by
  exact c9_deterministic c3decW c3uscW "tid0" freshWriter _ _ rfl rfl rfl

/-- Claim C10: on a non-OK backend response whose body cannot be read,
HandleResponse still writes the backend status with an empty body, and the
read error is silently discarded - the outcome does not involve the error
reporter at all. -/
theorem c10_nonok_body_read_error
    (re : Option String → Writer → Writer)
    (ep : String → Except String String) (gsc : String → Except String Int)
    (r : HttpResp) (e : String) (origin : Writer) (wb : Bool)
    (hs : r.statusCode ≠ 200) (hr : r.bodyRead = .error e) (ho : origin.status = none) :
    ((HandleResponse re ep gsc none (some r) origin wb).status = some r.statusCode) ∧
    ((HandleResponse re ep gsc none (some r) origin wb).body = origin.body) ∧
    (∀ re2 : Option String → Writer → Writer,
      HandleResponse re2 ep gsc none (some r) origin wb
        = HandleResponse re ep gsc none (some r) origin wb) := by
  refine ⟨?_, ?_, fun re2 => ?_⟩ <;>
    simp [HandleResponse, hs, hr, Writer.write, Writer.writeHeader, ho]

def c10httpW : HttpResp :=
  { statusCode := 503, headers := [], bodyRead := .error "connection reset" }

/-- Witness for C10: a 503 backend response with a failing body read is
written to the caller as a bare 503 with empty body. -/
theorem c10_nonok_body_read_error_witness :
    ((HandleResponse c3reW c3decW c3gscW none (some c10httpW) freshWriter false).status
      = some 503) ∧
    ((HandleResponse c3reW c3decW c3gscW none (some c10httpW) freshWriter false).body
      = "") := by
  have h := c10_nonok_body_read_error c3reW c3decW c3gscW c10httpW "connection reset"
    freshWriter false (by decide) (by decide) rfl
  exact ⟨h.1, h.2.1⟩

/-- Claim C8: ForwardHeadersByPrefix copies exactly the source header
pairs whose name carries the given forwarding prefix; encodeResponse
forwards the backend headers (its configured prefix is the empty string,
which every name carries) and sets the transaction-id header on every
branch, regardless of the backend status. -/
theorem c8_header_forwarding (p : String) (src dst : Headers)
    (d : String → Except String String) (u : String → Option Int)
    (tid : String) (w : Writer) (resp : XmidtResponse) :
    (∀ kv : String × String, kv ∈ ForwardHeadersByPrefix p src dst ↔
      kv ∈ dst ∨ (kv ∈ src ∧ hasPre p kv.1 = true)) ∧
    (headersGet HeaderWPATID (encodeResponse d u tid w resp).1.headers = [tid]) ∧
    (∀ kv ∈ resp.ForwardedHeaders, kv.1 ≠ HeaderWPATID → kv.1 ≠ contentTypeHeaderKey →
      kv ∈ (encodeResponse d u tid w resp).1.headers) := by
  refine ⟨fun kv => mem_ForwardHeadersByPrefix p src dst kv, ?_, ?_⟩
  · rw [encodeResponse_headers]
    by_cases h : resp.Code = 200 ∧ (d resp.Body).isOk
    · rw [if_pos h, headersGet_set_ne _ _ _ _ (by decide), headersGet_set_self]
    · rw [if_neg h, headersGet_set_self]
  · intro kv hmem hWPA hCT
    rw [encodeResponse_headers]
    have hbase : kv ∈ ForwardHeadersByPrefix "" resp.ForwardedHeaders w.headers :=
      (mem_ForwardHeadersByPrefix _ _ _ kv).mpr (Or.inr ⟨hmem, hasPre_empty kv.1⟩)
    by_cases h : resp.Code = 200 ∧ (d resp.Body).isOk
    · rw [if_pos h]
      exact mem_headersSet_of_ne _ _ _ _ hCT (mem_headersSet_of_ne _ _ _ _ hWPA hbase)
    · rw [if_neg h]
      exact mem_headersSet_of_ne _ _ _ _ hWPA hbase

/-- Witness for C8 at concrete headers: an X-named header is forwarded
under the X prefix, the transaction-id header comes out set, and a
forwarded backend header survives onto the caller-facing response. -/
theorem c8_header_forwarding_witness :
    (("X-A", "1") ∈ ForwardHeadersByPrefix "X" [("X-A", "1"), ("B", "2")] []) ∧
    (headersGet HeaderWPATID
      (encodeResponse c3decW c3uscW "tid0" freshWriter c3respW).1.headers = ["tid0"]) ∧
    (("X-A", "1") ∈ (encodeResponse c3decW c3uscW "tid0" freshWriter c3respW).1.headers) := by
  have h := c8_header_forwarding "X" [("X-A", "1"), ("B", "2")] [] c3decW c3uscW "tid0"
    freshWriter c3respW
  refine ⟨(h.1 ("X-A", "1")).mpr (Or.inr ⟨by decide, by decide⟩), h.2.1, ?_⟩
  exact h.2.2 ("X-A", "1") (by decide) (by decide) (by decide)

/-- Claim C4: a GET with empty (or, identically at this interface, missing)
names decodes to EmptyNames and the downstream network call is never
consulted; a GET with non-empty names yields the Get command whose names
list is the comma split and which becomes the get-attributes sub-kind
carrying the attributes string exactly when the attributes value is
non-empty. -/
theorem c4_get_decode (lib : JsonLib) (α : Type) (call1 call2 : WDMP → α)
    (r : RequestModel) (hm : r.method = .get) :
    (r.formNames = "" →
      requestPayload lib r = .error .EmptyNames ∧
      decodeThenExecute lib call1 r = decodeThenExecute lib call2 r) ∧
    (r.formNames ≠ "" →
      requestPayload lib r = .ok (.get
        { Command := if r.formAttributes ≠ "" then .getAttrs else .get,
          Names := r.formNames.splitOn ",",
          Attributes := if r.formAttributes ≠ "" then r.formAttributes else "" })) := by
  constructor
  · intro hn
    have hp : requestPayload lib r = .error .EmptyNames := by
      simp [requestPayload, hm, requestGetPayload, hn]
    exact ⟨hp, by simp [decodeThenExecute, hp, Except.map]⟩
  · intro hn
    by_cases ha : r.formAttributes = "" <;>
      simp [requestPayload, hm, requestGetPayload, hn, ha]

def libW : JsonLib :=
  { unmarshalRow := fun _ => .error "json error",
    unmarshalRows := fun _ => .error "json error",
    setPayload := fun _ _ _ _ => .error .InvalidSetWDMP }

def rGetEmptyW : RequestModel :=
  { method := .get, vars := [("deviceid", "d1"), ("service", "config")],
    formNames := "", formAttributes := "", headerNewCID := "", headerOldCID := "",
    headerSyncCMC := "", bodyRead := .ok "" }

/-- Witness for C4: a GET with empty names fails with EmptyNames and the
outcome is the same under two different network calls. -/
theorem c4_get_decode_witness :
    requestPayload libW rGetEmptyW = .error .EmptyNames ∧
    decodeThenExecute libW (fun _ => (1 : Nat)) rGetEmptyW
      = decodeThenExecute libW (fun _ => (2 : Nat)) rGetEmptyW := by
  exact (c4_get_decode libW Nat (fun _ => 1) (fun _ => 2) rGetEmptyW rfl).1 rfl

def c5reqW : RequestModel :=
  { method := .post,
    vars := [("deviceid", "d1"), ("service", "iot"), ("parameter", "x")],
    formNames := "", formAttributes := "", headerNewCID := "", headerOldCID := "",
    headerSyncCMC := "", bodyRead := .ok "hello" }

/-- Claim C5, evaluated on the code at the failing input: a POST matched
by the parameterised route with service iot and the extra path variable
parameter bound to x is NOT rejected with InvalidService - the guard
queries the key "parameters", which no configured route defines (the
routes bind deviceid, service and parameter), so the lookup yields the
empty map zero value and the body is forwarded verbatim instead. -/
theorem c5_iot_extra_param (lib : JsonLib) :
    requestPayload lib c5reqW = .ok (.raw "hello") ∧
    requestPayload lib c5reqW ≠ .error .InvalidService ∧
    "parameters" ∉ postParamRouteVars ∧ "parameters" ∉ postIotRouteVars := by
  have h : requestPayload lib c5reqW = .ok (.raw "hello") := rfl
  refine ⟨h, ?_, by decide, by decide⟩
  rw [h]
  simp

def c6unmarshalRows : String → Except String (List Row) :=
  fun b => if b = "[]" then .ok [] else .error "json unmarshal error"

/-- Counterexample for C6 as stated: with the table present and a
non-empty body holding an empty JSON array - which encoding/json decodes
into an empty slice with a nil error, mirrored here by c6unmarshalRows -
the decode SUCCEEDS with an empty rows list instead of failing with
MissingRows: only the emptiness of the body bytes is checked, never the
emptiness of the decoded rows list. -/
theorem c6_counterexample :
    requestReplacePayload c6unmarshalRows [("parameter", "t1")] (.ok "[]")
      = .ok (.replace { Command := .replaceRows, Table := "t1", Rows := [] }) ∧
    requestReplacePayload c6unmarshalRows [("parameter", "t1")] (.ok "[]")
      ≠ .error .MissingRows := by
  exact ⟨by decide, by decide⟩

/-- Claim C6 as amended: a PUT replace-rows decode fails with MissingTable
when the table path variable is absent, whatever the body read yields (so
before the body is read); with the table present it fails with
MissingRows exactly when the body is empty (zero bytes); a non-empty body
that JSON-decodes into a rows list - possibly empty - succeeds with that
list. -/
theorem c6_replace_rows_amended (uR : String → Except String (List Row))
    (m : Vars) (bodyRead : Except String String) :
    (varsLookup m "parameter" = none →
      requestReplacePayload uR m bodyRead = .error .MissingTable) ∧
    (∀ t, varsLookup m "parameter" = some t →
      (bodyRead = .ok "" → requestReplacePayload uR m bodyRead = .error .MissingRows) ∧
      (requestReplacePayload uR m bodyRead = .error .MissingRows → bodyRead = .ok "") ∧
      (∀ b rows, bodyRead = .ok b → b ≠ "" → uR b = .ok rows →
        requestReplacePayload uR m bodyRead
          = .ok (.replace { Command := .replaceRows, Table := t, Rows := rows }))) := by
  constructor
  · intro h
    simp [requestReplacePayload, h]
  · intro t ht
    refine ⟨?_, ?_, ?_⟩
    · intro hb
      simp [requestReplacePayload, ht, hb]
    · intro hres
      rcases hb : bodyRead with e | b2
      · rw [hb] at hres
        simp [requestReplacePayload, ht] at hres
      · by_cases hb0 : b2 = ""
        · rw [hb0]
        · rcases hu : uR b2 with e2 | rows <;>
            · rw [hb] at hres
              simp [requestReplacePayload, ht, hb0, hu] at hres
    · intro b rows hb hne hu
      simp [requestReplacePayload, ht, hb, hne, hu]

def c6varsW : Vars := [("parameter", "t2")]

/-- Witness for the amended C6 at concrete inputs: missing table, empty
body and empty-JSON-array body. -/
theorem c6_replace_rows_amended_witness :
    (requestReplacePayload c6unmarshalRows [] (.ok "[]") = .error .MissingTable) ∧
    (requestReplacePayload c6unmarshalRows c6varsW (.ok "") = .error .MissingRows) ∧
    (requestReplacePayload c6unmarshalRows c6varsW (.ok "[]")
      = .ok (.replace { Command := .replaceRows, Table := "t2", Rows := [] })) := by
  have h0 := (c6_replace_rows_amended c6unmarshalRows [] (.ok "[]")).1 rfl
  have h1 := ((c6_replace_rows_amended c6unmarshalRows c6varsW (.ok "")).2 "t2" rfl).1 rfl
  have h2 := ((c6_replace_rows_amended c6unmarshalRows c6varsW (.ok "[]")).2 "t2" rfl).2.2
    "[]" [] rfl (by decide) (by decide)
  exact ⟨h0, h1, h2⟩

/-- Witness for C1: the executor result at a concrete abandoned call. -/
theorem c1_cancellation_race_witness :
    PerformRequest "context canceled" { resp := none, err := none } .ctxFired
      = { resp := none, err := some "context canceled" } :=
  c1_cancellation_race.1 { resp := none, err := none }

/-- Witness for C5 at the concrete external functions. -/
theorem c5_iot_extra_param_witness :
    requestPayload libW c5reqW = .ok (.raw "hello") :=
  (c5_iot_extra_param libW).1

/-- Witness for C7 at concrete errors: a coded 404 keeps its status, an
uncoded error is masked to status 500 with the fixed internal message. -/
theorem c7_error_classifier_witness :
    ((encodeError id "tid0" (.coded 404 "no such device") freshWriter).status = some 404) ∧
    ((encodeError id "tid0" (.plain "db exploded") freshWriter).status = some 500) ∧
    ((encodeError id "tid0" (.plain "db exploded") freshWriter).body = ErrTr1d1umInternalMsg) := by
  have h1 := c7_error_classifier id "tid0" 404 "no such device"
  have h2 := c7_error_classifier id "tid0" 404 "db exploded"
  exact ⟨h1.1, h2.2.2.1, by simpa using h2.2.2.2.1⟩

end Tr1d1um
